import Mathlib

/-!
Shallow embedding of `src/fastapi-ingest/_endpoint.py`.

The program is a two-endpoint FastAPI service.  At module load it reads four
environment variables (raising `KeyError` when one is absent).  `POST /ingest`
calls `insert_row`, which opens a psycopg2 connection inside a `with` block,
opens a cursor inside a nested `with` block, and executes one parameterized
INSERT of a synthetic vitals row; `GET /` returns a constant payload.

Modelling decisions, all taken from the source or from the documented
semantics of the libraries the source calls:
* Randomness (`uuid.uuid4`, `random.choice`, `random.uniform`) is an explicit
  argument `Rand`: a uuid string, an index into the patient list, and a
  rational draw standing for the float returned by `random.uniform(60, 100)`
  (machine floats are modelled as rationals; `round(x, 1)` is round-half-even
  to one decimal, which is what CPython `round` computes on the exact value).
* The database world is an explicit fault oracle `Fault` saying whether the
  connect, the execute and the final commit succeed; a run produces the list
  of connection-level events it performed plus an `Except` result.
* psycopg2 `with connect(...) as conn` semantics (documented in psycopg2
  "Transactions control"): entering the block starts a transaction; leaving
  it normally commits, leaving it on an exception rolls back; the block does
  NOT close the connection.  `with conn.cursor() as cur` closes the cursor
  only.  No `close()` is ever called on the connection in this code.
* `json.dumps` with default arguments separates items with a comma-space and
  keys from values with a colon-space; only flat string-valued objects occur
  in this program, so the model serializes those.
-/

namespace Ingest

/-- Configuration loaded at module import, one field per environment read:
`DB_USER`, `DB_PASS`, `DB_NAME`, and the host string built as
`"/cloudsql/" ++ INSTANCE_CONNECTION_NAME`. -/
structure Config where
  user : String
  password : String
  dbname : String
  host : String
deriving DecidableEq, Repr

/-- Model of `os.environ[k]`: returns the value when the variable is set and
raises `KeyError` (an `Except.error`) when it is absent. -/
def getenv (env : String → Option String) (k : String) : Except String String :=
  match env k with
  | some v => Except.ok v
  | none => Except.error ("KeyError: " ++ k)

/-- Module-level configuration loading, in source order:
`DB_USER`, `DB_PASS`, `DB_NAME`, then `DB_HOST = "/cloudsql/" +
os.environ["INSTANCE_CONNECTION_NAME"]`.  The first missing variable aborts
loading with its `KeyError`. -/
def loadConfig (env : String → Option String) : Except String Config :=
  match getenv env "DB_USER" with
  | Except.error e => Except.error e
  | Except.ok u =>
    match getenv env "DB_PASS" with
    | Except.error e => Except.error e
    | Except.ok p =>
      match getenv env "DB_NAME" with
      | Except.error e => Except.error e
      | Except.ok n =>
        match getenv env "INSTANCE_CONNECTION_NAME" with
        | Except.error e => Except.error e
        | Except.ok icn =>
          Except.ok { user := u, password := p, dbname := n,
                      host := "/cloudsql/" ++ icn }

/-- The SQL text of the module constant `SQL_QUERY`, verbatim. -/
def SQL_QUERY : String :=
  "\nINSERT INTO public.vitals_events (\n  event_id, patient_id, loinc_code, code_display,\n  value_num, unit, effective_ts, source, raw\n) VALUES (%s,%s,%s,%s,%s,%s,NOW(),%s,%s)\n"

/-- The fixed candidate list of `random.choice(["P001","P002","P003"])`. -/
def PATIENTS : List String := ["P001", "P002", "P003"]

/-- Model of `random.choice(l)`: the draw is an index into the sequence. -/
def choice (l : List String) (i : Fin l.length) : String := l.get i

/-- Round-half-even to the nearest integer, the rounding CPython `round`
applies; on non-ties it agrees with ordinary rounding to nearest. -/
def rhe (x : ℚ) : ℤ :=
  if Int.fract x = 1 / 2 then (if Even ⌊x⌋ then ⌊x⌋ else ⌊x⌋ + 1) else round x

/-- Model of Python `round(x, 1)`: the nearest multiple of one tenth, ties
to even, computed over the rationals. -/
def pyRound1 (x : ℚ) : ℚ := (rhe (10 * x) : ℚ) / 10

/-- JSON escaping of one character, the CPython `json.dumps` default for the
ASCII characters this program can produce. -/
def jsonEscapeChar (c : Char) : String :=
  if c = '"' then "\\\""
  else if c = '\\' then "\\\\"
  else if c = '\n' then "\\n"
  else if c = '\r' then "\\r"
  else if c = '\t' then "\\t"
  else String.singleton c

/-- JSON serialization of a string literal. -/
def jsonString (s : String) : String :=
  "\"" ++ String.join (s.toList.map jsonEscapeChar) ++ "\""

/-- Model of `json.dumps` on a flat object with string values, with the
default separators: comma-space between items, colon-space after a key. -/
def jsonDumpsObj (fields : List (String × String)) : String :=
  "\x7b" ++ String.intercalate ", "
      (fields.map (fun kv => jsonString kv.1 ++ ": " ++ jsonString kv.2)) ++ "\x7d"

/-- The random draws one call to `insert_row` consumes, in source order:
`str(uuid.uuid4())`, the index drawn by `random.choice`, and the value
drawn by `random.uniform(60, 100)`. -/
structure Rand where
  uuid : String
  patientIdx : Fin (PATIENTS.length)
  u : ℚ
deriving DecidableEq

/-- A value bound to a `%s` placeholder of the parameterized statement. -/
inductive SqlValue where
  | s (v : String)
  | q (v : ℚ)
deriving DecidableEq, Repr

/-- The parameter tuple passed to `cur.execute(SQL_QUERY, ...)`, in source
order.  Note it has eight entries: the ninth column, `effective_ts`, has no
placeholder because the statement writes `NOW()` there. -/
def insertParams (r : Rand) : List SqlValue :=
  [ SqlValue.s r.uuid,
    SqlValue.s (choice PATIENTS r.patientIdx),
    SqlValue.s "8867-4",
    SqlValue.s "Heart rate",
    SqlValue.q (pyRound1 r.u),
    SqlValue.s "beats/min",
    SqlValue.s "synthetic",
    SqlValue.s (jsonDumpsObj [("note", "fastapi demo")]) ]

/-- The timestamp written to `effective_ts`: `NOW()` in the statement text,
so it is assigned by the database clock and never supplied by the caller. -/
inductive TsValue where
  | serverNow
deriving DecidableEq, Repr

/-- One row of `public.vitals_events` as the statement populates it. -/
structure VitalsRow where
  event_id : String
  patient_id : String
  loinc_code : String
  code_display : String
  value_num : ℚ
  unit : String
  effective_ts : TsValue
  source : String
  raw : String
deriving DecidableEq, Repr

/-- Meaning of one execution of `SQL_QUERY` with a parameter list: the six
placeholders before `NOW()` fill `event_id, patient_id, loinc_code,
code_display, value_num, unit`, `effective_ts` takes the database clock, and
the two placeholders after `NOW()` fill `source, raw`, following the VALUES
clause `(%s,%s,%s,%s,%s,%s,NOW(),%s,%s)`.  Any other parameter shape is a
database error. -/
def applyInsert (ps : List SqlValue) : Option VitalsRow :=
  match ps with
  | [SqlValue.s e, SqlValue.s p, SqlValue.s lc, SqlValue.s cd, SqlValue.q v,
     SqlValue.s un, SqlValue.s src, SqlValue.s rw] =>
      some { event_id := e, patient_id := p, loinc_code := lc,
             code_display := cd, value_num := v, unit := un,
             effective_ts := TsValue.serverNow, source := src, raw := rw }
  | _ => none

/-- The row one call with draws `r` inserts. -/
def mkRow (r : Rand) : VitalsRow :=
  { event_id := r.uuid,
    patient_id := choice PATIENTS r.patientIdx,
    loinc_code := "8867-4",
    code_display := "Heart rate",
    value_num := pyRound1 r.u,
    unit := "beats/min",
    effective_ts := TsValue.serverNow,
    source := "synthetic",
    raw := jsonDumpsObj [("note", "fastapi demo")] }

deriving instance DecidableEq for Except

/-- Connection-level events a call can perform, in order of occurrence. -/
inductive Ev where
  | connect (cfg : Config)
  | execute (sql : String) (ps : List SqlValue)
  | executeFail (sql : String) (ps : List SqlValue)
  | commit
  | commitFail
  | rollback
  | close
deriving DecidableEq, Repr

/-- The errors a call can raise at the database boundary. -/
inductive DbError where
  | connectFailed
  | executeFailed
  | commitFailed
deriving DecidableEq, Repr

/-- Fault oracle for one call: whether `psycopg2.connect` succeeds, whether
`cur.execute` succeeds, and whether the commit performed on block exit
succeeds. -/
structure Fault where
  connectOk : Bool
  executeOk : Bool
  commitOk : Bool
deriving DecidableEq, Repr

/-- Embedding of `insert_row`.  `with psycopg2.connect(...) as conn` opens a
connection (or raises); the nested `with conn.cursor() as cur` runs
`cur.execute(SQL_QUERY, params)`.  On normal exit of the connection block the
transaction is committed; when `execute` raises, the block rolls the
transaction back and re-raises.  Per the documented psycopg2 context-manager
semantics, exiting the block ends the transaction but never closes the
connection, so no `Ev.close` is ever emitted. -/
def insert_row (cfg : Config) (r : Rand) (f : Fault) :
    List Ev × Except DbError Unit :=
  if f.connectOk then
    if f.executeOk then
      if f.commitOk then
        ([Ev.connect cfg, Ev.execute SQL_QUERY (insertParams r), Ev.commit],
         Except.ok ())
      else
        ([Ev.connect cfg, Ev.execute SQL_QUERY (insertParams r), Ev.commitFail],
         Except.error DbError.commitFailed)
    else
      ([Ev.connect cfg, Ev.executeFail SQL_QUERY (insertParams r), Ev.rollback],
       Except.error DbError.executeFailed)
  else
    ([], Except.error DbError.connectFailed)

/-- Embedding of the `POST /ingest` handler: call `insert_row`, propagate any
error unchanged, and on success return the dict with key `result` mapped to
`inserted`. -/
def ingest (cfg : Config) (r : Rand) (f : Fault) :
    List Ev × Except DbError (List (String × String)) :=
  match insert_row cfg r f with
  | (evs, Except.ok ()) => (evs, Except.ok [("result", "inserted")])
  | (evs, Except.error e) => (evs, Except.error e)

/-- Embedding of the `GET /` handler: no database events, constant body. -/
def health : List Ev × Except DbError (List (String × String)) :=
  ([], Except.ok [("status", "ok")])

/-- The two routes the app registers. -/
inductive Request where
  | getRoot
  | postIngest
deriving DecidableEq, Repr

/-- Routing: `GET /` dispatches to `health` (which ignores the fault oracle
and the random draws entirely), `POST /ingest` to `ingest`. -/
def handleRequest (cfg : Config) (req : Request) (r : Rand) (f : Fault) :
    List Ev × Except DbError (List (String × String)) :=
  match req with
  | Request.getRoot => health
  | Request.postIngest => ingest cfg r f

/-- Service startup: module import loads the configuration; only when every
environment read succeeds does a request handler come to exist. -/
def startService (env : String → Option String) :
    Except String (Request → Rand → Fault → List Ev × Except DbError (List (String × String))) :=
  (loadConfig env).map (fun cfg => handleRequest cfg)

/-- Rows durably committed by a call: the executed statements count only when
the transaction was committed. -/
def committedRows (evs : List Ev) : List (String × List SqlValue) :=
  if Ev.commit ∈ evs then
    evs.filterMap (fun e =>
      match e with
      | Ev.execute sql ps => some (sql, ps)
      | _ => none)
  else []

/-- Number of times the call attempted to issue the insert statement,
counting both successful and raising executions. -/
def execAttempts (evs : List Ev) : Nat :=
  (evs.filter (fun e =>
    match e with
    | Ev.execute _ _ => true
    | Ev.executeFail _ _ => true
    | _ => false)).length

/-- A concrete configuration used by witnesses. -/
def cfg0 : Config :=
  { user := "u", password := "pw", dbname := "db", host := "/cloudsql/proj:region:inst" }

/-- A concrete draw used by witnesses. -/
def rand0 : Rand := { uuid := "id-1", patientIdx := ⟨1, by decide⟩, u := 777 / 10 }

/-- The fault oracle of a fully healthy database. -/
def faultNone : Fault := { connectOk := true, executeOk := true, commitOk := true }

/-- The fault oracle of a call whose execute raises. -/
def faultExec : Fault := { connectOk := true, executeOk := false, commitOk := true }

/-- The fault oracle of a call whose connect raises. -/
def faultConn : Fault := { connectOk := false, executeOk := true, commitOk := true }

end Ingest

namespace Ingest

/-- C5: every call to GET / returns exactly the body with status mapped to ok,
performs no database events, and its result does not depend on the fault
oracle (database availability), on the random draws, or on any prior call
(the handler is a pure constant). -/
theorem health_constant_no_effects (cfg : Config) (r : Rand) (f : Fault) :
    handleRequest cfg Request.getRoot r f = ([], Except.ok [("status", "ok")]) := rfl

/-- C6: for every call to POST /ingest, the patient identifier inserted into
the patient_id column is one of exactly the three values P001, P002, P003. -/
theorem patient_id_in_fixed_set (r : Rand) :
    (mkRow r).patient_id = "P001" ∨ (mkRow r).patient_id = "P002" ∨
      (mkRow r).patient_id = "P003" := by
  rcases r with ⟨u, i, q⟩
  fin_cases i <;> simp [mkRow, choice, PATIENTS]

/-- C9: for every call, the observation code, display label, unit and source
tag of the inserted row are the fixed constants 8867-4, Heart rate, beats/min
and synthetic, identical across calls, and the effective timestamp is the
database clock (the parameter tuple has only eight entries, the statement
filling effective_ts with NOW). -/
theorem insert_fixed_fields_server_timestamp (r : Rand) :
    applyInsert (insertParams r) = some (mkRow r) ∧
    (mkRow r).loinc_code = "8867-4" ∧
    (mkRow r).code_display = "Heart rate" ∧
    (mkRow r).unit = "beats/min" ∧
    (mkRow r).source = "synthetic" ∧
    (mkRow r).effective_ts = TsValue.serverNow ∧
    (insertParams r).length = 8 :=
  ⟨rfl, rfl, rfl, rfl, rfl, rfl, rfl⟩

/-- C10: for every call, the value passed for the raw column is exactly the
fixed serialization of the one-key note object, and it never varies across
calls and never incorporates any generated random value. -/
theorem raw_payload_constant (r : Rand) :
    (mkRow r).raw = "\x7b\"note\": \"fastapi demo\"\x7d" ∧
    ∀ r' : Rand, (mkRow r').raw = (mkRow r).raw := by
  refine ⟨?_, fun r' => rfl⟩
  show jsonDumpsObj [("note", "fastapi demo")] = "\x7b\"note\": \"fastapi demo\"\x7d"
  decide

end Ingest

namespace Ingest

/-- C1 counterexample: on a healthy call with concrete inputs, `insert_row`
acquires a connection and returns success, yet its event trace contains no
close of the connection — the psycopg2 connection `with` block only ends the
transaction, so the claim that the connection is closed before `insert_row`
returns is false of the code. -/
theorem insert_row_success_leaves_connection_open :
    Ev.connect cfg0 ∈ (insert_row cfg0 rand0 faultNone).1 ∧
    Ev.close ∉ (insert_row cfg0 rand0 faultNone).1 ∧
    (insert_row cfg0 rand0 faultNone).2 = Except.ok () := by
  decide

/-- C1 amended: on every call to `insert_row` the transaction opened with the
connection is finalized before the call returns or propagates — committed on
the success path, rolled back when the insert raises — but the connection
itself is never closed by `insert_row` on any exit path; it is left to be
reclaimed when the last reference to it is dropped after the call. -/
theorem insert_row_transaction_finalized_no_close (cfg : Config) (r : Rand)
    (f : Fault) :
    Ev.close ∉ (insert_row cfg r f).1 ∧
    ((insert_row cfg r f).2 = Except.ok () →
        (insert_row cfg r f).1 =
          [Ev.connect cfg, Ev.execute SQL_QUERY (insertParams r), Ev.commit]) ∧
    (f.connectOk = true → f.executeOk = false →
        (insert_row cfg r f).1 =
          [Ev.connect cfg, Ev.executeFail SQL_QUERY (insertParams r), Ev.rollback]) := by
  rcases f with ⟨co, eo, ko⟩
  cases co <;> cases eo <;> cases ko <;> simp [insert_row]

/-- Witness for the amended C1 theorem at concrete inputs: the success path
ends in a commit and the failing-execute path ends in a rollback. -/
theorem insert_row_transaction_finalized_no_close_witness :
    (insert_row cfg0 rand0 faultNone).1 =
      [Ev.connect cfg0, Ev.execute SQL_QUERY (insertParams rand0), Ev.commit] ∧
    (insert_row cfg0 rand0 faultExec).1 =
      [Ev.connect cfg0, Ev.executeFail SQL_QUERY (insertParams rand0), Ev.rollback] :=
  ⟨(insert_row_transaction_finalized_no_close cfg0 rand0 faultNone).2.1 rfl,
   (insert_row_transaction_finalized_no_close cfg0 rand0 faultExec).2.2 rfl rfl⟩

/-- C2: every call to POST /ingest is atomic: on success exactly the one new
row is committed, on any error nothing is committed, and every call is one of
those two cases — no state in which the call fails yet a row was committed. -/
theorem ingest_atomic (cfg : Config) (r : Rand) (f : Fault) :
    ((ingest cfg r f).2 = Except.ok [("result", "inserted")] →
        committedRows (ingest cfg r f).1 = [(SQL_QUERY, insertParams r)]) ∧
    (∀ e, (ingest cfg r f).2 = Except.error e →
        committedRows (ingest cfg r f).1 = []) ∧
    ((ingest cfg r f).2 = Except.ok [("result", "inserted")] ∨
        ∃ e, (ingest cfg r f).2 = Except.error e) := by
  rcases f with ⟨co, eo, ko⟩
  cases co <;> cases eo <;> cases ko <;>
    simp [ingest, insert_row, committedRows]

/-- Witness for C2 at concrete inputs: the healthy call commits exactly one
row and the call whose execute raises commits nothing. -/
theorem ingest_atomic_witness :
    committedRows (ingest cfg0 rand0 faultNone).1 = [(SQL_QUERY, insertParams rand0)] ∧
    committedRows (ingest cfg0 rand0 faultExec).1 = [] :=
  ⟨(ingest_atomic cfg0 rand0 faultNone).1 rfl,
   (ingest_atomic cfg0 rand0 faultExec).2.1 DbError.executeFailed rfl⟩

/-- C3: every database error raised inside `insert_row` propagates out of the
`ingest` handler unchanged (nothing is caught), and the insert statement is
attempted at most once per call — exactly once whenever the connection is
established — so no retry ever occurs. -/
theorem ingest_propagates_errors_single_attempt (cfg : Config) (r : Rand)
    (f : Fault) :
    (∀ e, (insert_row cfg r f).2 = Except.error e →
        (ingest cfg r f).2 = Except.error e) ∧
    execAttempts (ingest cfg r f).1 ≤ 1 ∧
    (f.connectOk = true → execAttempts (ingest cfg r f).1 = 1) := by
  rcases f with ⟨co, eo, ko⟩
  cases co <;> cases eo <;> cases ko <;>
    simp [ingest, insert_row, execAttempts]

/-- Witness for C3 at concrete inputs: a failing connect propagates its error
through the handler, and a healthy call issues exactly one insert attempt. -/
theorem ingest_propagates_errors_single_attempt_witness :
    (ingest cfg0 rand0 faultConn).2 = Except.error DbError.connectFailed ∧
    execAttempts (ingest cfg0 rand0 faultNone).1 = 1 :=
  ⟨(ingest_propagates_errors_single_attempt cfg0 rand0 faultConn).1
      DbError.connectFailed rfl,
   (ingest_propagates_errors_single_attempt cfg0 rand0 faultNone).2.2 rfl⟩

/-- C4: every successful call to POST /ingest returns the fixed body with
result mapped to inserted, and exactly one row — the generated vitals row —
was inserted by exactly one execution of the parameterized statement. -/
theorem ingest_success_contract (cfg : Config) (r : Rand) (f : Fault)
    (body : List (String × String))
    (h : (ingest cfg r f).2 = Except.ok body) :
    body = [("result", "inserted")] ∧
    (ingest cfg r f).1 =
      [Ev.connect cfg, Ev.execute SQL_QUERY (insertParams r), Ev.commit] ∧
    committedRows (ingest cfg r f).1 = [(SQL_QUERY, insertParams r)] ∧
    execAttempts (ingest cfg r f).1 = 1 ∧
    applyInsert (insertParams r) = some (mkRow r) := by
  rcases f with ⟨co, eo, ko⟩
  cases co <;> cases eo <;> cases ko <;>
    simp_all [ingest, insert_row, committedRows, execAttempts, applyInsert,
      insertParams, mkRow]

/-- Witness for C4 at concrete inputs: the healthy call succeeds and its
trace commits exactly the one generated row. -/
theorem ingest_success_contract_witness :
    (ingest cfg0 rand0 faultNone).2 = Except.ok [("result", "inserted")] ∧
    committedRows (ingest cfg0 rand0 faultNone).1 = [(SQL_QUERY, insertParams rand0)] :=
  ⟨rfl,
   (ingest_success_contract cfg0 rand0 faultNone [("result", "inserted")] rfl).2.2.1⟩

end Ingest

namespace Ingest

/-- Lower bound for round-half-even: an integer below the input bounds the
rounded value from below. -/
theorem le_rhe (a : ℤ) (x : ℚ) (ha : (a : ℚ) ≤ x) : a ≤ rhe x := by
  unfold rhe
  split
  · have h1 : a ≤ ⌊x⌋ := Int.le_floor.mpr ha
    split <;> omega
  · have h0 : (a : ℚ) ≤ x + 1 / 2 := by linarith
    have h1 : a ≤ ⌊x + 1 / 2⌋ := Int.le_floor.mpr h0
    rw [round_eq]
    omega

/-- Upper bound for round-half-even: an integer above the input bounds the
rounded value from above. -/
theorem rhe_le (b : ℤ) (x : ℚ) (hb : x ≤ (b : ℚ)) : rhe x ≤ b := by
  unfold rhe
  split
  · rename_i h
    have hfl : (⌊x⌋ : ℚ) + Int.fract x = x := Int.floor_add_fract x
    rw [h] at hfl
    have hfb : ⌊x⌋ < b := by
      have h2 : (⌊x⌋ : ℚ) < (b : ℚ) := by linarith
      exact_mod_cast h2
    split <;> omega
  · rw [round_eq]
    have h1 : ⌊x + 1 / 2⌋ < b + 1 := by
      apply Int.floor_lt.mpr
      push_cast
      linarith
    omega

/-- C7: for every call to POST /ingest whose uniform draw lies in the range
`random.uniform(60, 100)` guarantees, the numeric value inserted into
value_num lies in the closed interval from 60 to 100 and is an integer
multiple of one tenth (one decimal digit of precision). -/
theorem value_num_range_one_decimal (r : Rand) (h1 : (60 : ℚ) ≤ r.u)
    (h2 : r.u ≤ 100) :
    (60 : ℚ) ≤ (mkRow r).value_num ∧ (mkRow r).value_num ≤ 100 ∧
    ∃ k : ℤ, (mkRow r).value_num = (k : ℚ) / 10 := by
  have hv : (mkRow r).value_num = (rhe (10 * r.u) : ℚ) / 10 := rfl
  have ha : ((600 : ℤ) : ℚ) ≤ 10 * r.u := by push_cast; linarith
  have hb : 10 * r.u ≤ ((1000 : ℤ) : ℚ) := by push_cast; linarith
  have l1 : (600 : ℤ) ≤ rhe (10 * r.u) := le_rhe 600 (10 * r.u) ha
  have l2 : rhe (10 * r.u) ≤ 1000 := rhe_le 1000 (10 * r.u) hb
  have l1q : (600 : ℚ) ≤ (rhe (10 * r.u) : ℚ) := by exact_mod_cast l1
  have l2q : (rhe (10 * r.u) : ℚ) ≤ 1000 := by exact_mod_cast l2
  refine ⟨?_, ?_, ⟨rhe (10 * r.u), hv⟩⟩
  · rw [hv]; linarith
  · rw [hv]; linarith

/-- Witness for C7 at the concrete draw 77.7: the inserted value is within
range and a multiple of one tenth. -/
theorem value_num_range_one_decimal_witness :
    (60 : ℚ) ≤ rand0.u ∧ rand0.u ≤ 100 ∧
    ((60 : ℚ) ≤ (mkRow rand0).value_num ∧ (mkRow rand0).value_num ≤ 100 ∧
      ∃ k : ℤ, (mkRow rand0).value_num = (k : ℚ) / 10) :=
  ⟨by norm_num [rand0], by norm_num [rand0],
   value_num_range_one_decimal rand0 (by norm_num [rand0]) (by norm_num [rand0])⟩

/-- C8: when any of the four required environment variables is absent,
module import fails with its KeyError and no request handler comes to exist,
so no request can ever be served; when all four are present, startup succeeds
and the handler closes over exactly the configuration read from them. -/
theorem startService_requires_env (env : String → Option String) :
    ((env "DB_USER" = none ∨ env "DB_PASS" = none ∨ env "DB_NAME" = none ∨
        env "INSTANCE_CONNECTION_NAME" = none) →
      ∃ msg, startService env = Except.error msg) ∧
    (∀ u p n icn, env "DB_USER" = some u → env "DB_PASS" = some p →
      env "DB_NAME" = some n → env "INSTANCE_CONNECTION_NAME" = some icn →
      startService env = Except.ok (handleRequest
        { user := u, password := p, dbname := n, host := "/cloudsql/" ++ icn })) := by
  constructor
  · intro h
    cases hu : env "DB_USER" <;> cases hp : env "DB_PASS" <;>
      cases hn : env "DB_NAME" <;> cases hi : env "INSTANCE_CONNECTION_NAME" <;>
      simp_all [startService, loadConfig, getenv, Except.map]
  · intro u p n icn hu hp hn hi
    simp [startService, loadConfig, getenv, hu, hp, hn, hi, Except.map]

/-- Witness for C8 at concrete environments: the empty environment fails
startup, and a fully populated one yields a handler built from exactly the
four values read. -/
theorem startService_requires_env_witness :
    (∃ msg, startService (fun _ => none) = Except.error msg) ∧
    startService (fun k => some k) = Except.ok (handleRequest
      { user := "DB_USER", password := "DB_PASS", dbname := "DB_NAME",
        host := "/cloudsql/" ++ "INSTANCE_CONNECTION_NAME" }) :=
  ⟨(startService_requires_env (fun _ => none)).1 (Or.inl rfl),
   (startService_requires_env (fun k => some k)).2
     "DB_USER" "DB_PASS" "DB_NAME" "INSTANCE_CONNECTION_NAME" rfl rfl rfl rfl⟩

end Ingest
